import Mathlib

/-!
Verification of `skrf.media.freespace` (class `Freespace`), a plane-wave
medium described through a distributed-circuit transmission-line model.

The numpy code evaluates every quantity element-wise over the frequency
sweep; the embedding models the state of the medium at one frequency point
(`w` is the angular frequency of that point).  Python exceptions are
modelled with `Except Err`: `1./self.rho` raises `ZeroDivisionError` when
the resistivity is zero, and a failed dictionary lookup raises `KeyError`.
The external collaborators that are not part of this module
(`DistributedCircuit` and the material table `skrf.data.materials`) are
modelled from the spec, as marked in their doc comments.
-/

/-- Errors raised by the embedded code: Python `ZeroDivisionError` (from
`1./self.rho` at a zero resistivity) and `KeyError` (a failed dictionary
lookup, carrying the missing key). `KeyError` is Python's
`LookupError`-class error. -/
inductive Err where
  | ZeroDivisionError : Err
  | KeyError : String → Err
deriving DecidableEq

/-- The value assigned to `rho`: Python `None`, a number, or a material
name string (resolved through the material table at assignment time). -/
inductive RhoVal where
  | none : RhoVal
  | num : ℝ → RhoVal
  | str : String → RhoVal

/-- `scipy.constants.mu_0`, the vacuum permeability (CODATA 2018 value). -/
noncomputable def mu_0 : ℝ := 1.25663706212e-6

/-- `scipy.constants.epsilon_0`, the vacuum permittivity (CODATA 2018 value). -/
noncomputable def epsilon_0 : ℝ := 8.8541878128e-12

/-- The state of a `Freespace` medium at one frequency point:
`w` is `self.frequency.w` (angular frequency) at that point, `ep_r` the
complex relative permittivity, `mu_r` the complex relative permeability,
`rho` the stored `_rho` (already resolved to a number, `Option.none` for
Python `None`), `mode_type` the stored mode string and `angle` the
propagation angle in radians. -/
structure Freespace where
  w : ℝ
  ep_r : ℂ
  mu_r : ℂ
  rho : Option ℝ
  mode_type : String
  angle : ℝ

/-- `Freespace.R`: `self.frequency.w * imag(mu_0*self.mu_r)`. -/
noncomputable def Freespace.R (m : Freespace) : ℝ :=
  m.w * ((mu_0 : ℂ) * m.mu_r).im

/-- `Freespace.L`: `real(mu_0*self.mu_r)`. -/
noncomputable def Freespace.L (m : Freespace) : ℝ :=
  ((mu_0 : ℂ) * m.mu_r).re

/-- `Freespace.C`: `real(epsilon_0*self.ep_r)`. -/
noncomputable def Freespace.C (m : Freespace) : ℝ :=
  ((epsilon_0 : ℂ) * m.ep_r).re

/-- `Freespace.G`: `conductivity + self.frequency.w * imag(epsilon_0*self.ep_r)`
with `conductivity = 1./self.rho` when `self.rho is not None` and `0`
otherwise.  The division raises `ZeroDivisionError` when the stored
resistivity is zero at this point. -/
noncomputable def Freespace.G (m : Freespace) : Except Err ℝ :=
  match m.rho with
  | some r =>
      if r = 0 then Except.error Err.ZeroDivisionError
      else Except.ok (1 / r + m.w * ((epsilon_0 : ℂ) * m.ep_r).im)
  | Option.none => Except.ok (0 + m.w * ((epsilon_0 : ℂ) * m.ep_r).im)

/-- Modelled from the spec: the external MaterialTable
(`skrf.data.materials`), a mapping from lowercase material name to
resistivity in ohm*m; the module is not part of the source under
verification, so a representative sample of entries is used. -/
def materials : List (String × ℚ) :=
  [("al", 2.82e-8), ("aluminum", 2.82e-8),
   ("copper", 1.68e-8), ("gold", 2.44e-8)]

/-- Python `str.lower()` on the ASCII strings used as keys and modes:
each character is lowercased. -/
def py_lower (s : String) : String :=
  ⟨s.data.map Char.toLower⟩

/-- The `rho` property setter: a string is resolved through
`materials[val.lower()]` (raising `KeyError` when absent, in which case
`self._rho` is never assigned); any other value is stored as given. -/
noncomputable def Freespace.rho_set (m : Freespace) (val : RhoVal) :
    Except Err Freespace :=
  match val with
  | RhoVal.str s =>
      match materials.lookup (py_lower s) with
      | some r => Except.ok { m with rho := some (r : ℝ) }
      | Option.none => Except.error (Err.KeyError (py_lower s))
  | RhoVal.num r => Except.ok { m with rho := some r }
  | RhoVal.none => Except.ok { m with rho := Option.none }

/-- Python attribute-assignment semantics for `m.rho = val`: on success the
object holds the new state, on an exception the object is unchanged and
the error propagates. -/
noncomputable def Freespace.rho_assign (m : Freespace) (val : RhoVal) :
    Freespace × Option Err :=
  match Freespace.rho_set m val with
  | Except.ok m2 => (m2, Option.none)
  | Except.error e => (m, some e)

/-- Plain attribute assignment `m.mode_type = v`: the class defines no
setter for `mode_type`, so a later reassignment stores the value verbatim
(no lowercasing) and never raises. -/
def Freespace.set_mode_type (m : Freespace) (v : String) : Freespace :=
  { m with mode_type := v }

/-- `Freespace.__init__`: stores `ep_r`, `mu_r`, `mode_type.lower()` and
`angle`, then runs `self.rho = rho` through the `rho` property setter
(which may raise `KeyError` for an unknown material string). -/
noncomputable def Freespace.init (w : ℝ) (ep_r mu_r : ℂ) (rho : RhoVal)
    (mode_type : String) (angle : ℝ) : Except Err Freespace :=
  Freespace.rho_set
    { w := w, ep_r := ep_r, mu_r := mu_r, rho := Option.none,
      mode_type := py_lower mode_type, angle := angle } rho

/-- Modelled from the spec: the generic distributed-line-model
characteristic impedance `Z0 = sqrt((R + jwL)/(G + jwC))` supplied by the
external `DistributedCircuit` base class (not part of the source under
verification), evaluated on this medium's R, L, G, C accessors; a raised
error from `G` propagates. -/
noncomputable def DistributedCircuit.Z0 (m : Freespace) : Except Err ℂ :=
  match Freespace.G m with
  | Except.error e => Except.error e
  | Except.ok g =>
      Except.ok (((((Freespace.R m : ℝ) : ℂ) + (m.w : ℂ) * ((Freespace.L m : ℝ) : ℂ) * Complex.I) /
        (((g : ℝ) : ℂ) + (m.w : ℂ) * ((Freespace.C m : ℝ) : ℂ) * Complex.I)) ^ ((1 : ℂ) / 2))

/-- Modelled from the spec: the generic distributed-line-model propagation
constant `gamma = sqrt((R + jwL)(G + jwC))` supplied by the external
`DistributedCircuit` base class, evaluated on this medium's R, L, G, C
accessors; a raised error from `G` propagates. -/
noncomputable def DistributedCircuit.gamma (m : Freespace) : Except Err ℂ :=
  match Freespace.G m with
  | Except.error e => Except.error e
  | Except.ok g =>
      Except.ok (((((Freespace.R m : ℝ) : ℂ) + (m.w : ℂ) * ((Freespace.L m : ℝ) : ℂ) * Complex.I) *
        (((g : ℝ) : ℂ) + (m.w : ℂ) * ((Freespace.C m : ℝ) : ℂ) * Complex.I)) ^ ((1 : ℂ) / 2))

/-- `Freespace.Z0`: computes the generic `DistributedCircuit.Z0`, builds
`Z0_dict = {'te': Z0/cos(angle), 'tm': Z0*cos(angle), 'tem': Z0}` and
returns `Z0_dict[self.mode_type]`, raising `KeyError` for an unrecognized
`mode_type`. -/
noncomputable def Freespace.Z0 (m : Freespace) : Except Err ℂ :=
  match DistributedCircuit.Z0 m with
  | Except.error e => Except.error e
  | Except.ok z =>
      let Z0_dict : List (String × ℂ) :=
        [("te", z / ((Real.cos m.angle : ℝ) : ℂ)),
         ("tm", z * ((Real.cos m.angle : ℝ) : ℂ)),
         ("tem", z)]
      match Z0_dict.lookup m.mode_type with
      | some v => Except.ok v
      | Option.none => Except.error (Err.KeyError m.mode_type)

/-- `Freespace.gamma`: `DistributedCircuit.gamma.fget(self)*cos(self.angle)`,
with no mode validation of any kind. -/
noncomputable def Freespace.gamma (m : Freespace) : Except Err ℂ :=
  match DistributedCircuit.gamma m with
  | Except.error e => Except.error e
  | Except.ok g => Except.ok (g * ((Real.cos m.angle : ℝ) : ℂ))

/-- The spec formula for distributed resistance:
`angular_frequency * imag(mu_0 * relative_permeability)`. -/
noncomputable def spec_R (m : Freespace) : ℝ :=
  m.w * ((mu_0 : ℂ) * m.mu_r).im

/-- The spec formula for distributed inductance:
`real(mu_0 * relative_permeability)`. -/
noncomputable def spec_L (m : Freespace) : ℝ :=
  ((mu_0 : ℂ) * m.mu_r).re

/-- The spec formula for distributed capacitance:
`real(epsilon_0 * relative_permittivity)`. -/
noncomputable def spec_C (m : Freespace) : ℝ :=
  ((epsilon_0 : ℂ) * m.ep_r).re

/-- The spec conductive term: `1/resistivity` if resistivity is set, `0`
if resistivity is None. -/
noncomputable def spec_conductive_term (m : Freespace) : ℝ :=
  match m.rho with
  | some r => 1 / r
  | Option.none => 0

/-- The spec formula for distributed conductance:
`conductive_term + angular_frequency * imag(epsilon_0 * relative_permittivity)`. -/
noncomputable def spec_G (m : Freespace) : ℝ :=
  spec_conductive_term m + m.w * ((epsilon_0 : ℂ) * m.ep_r).im

/-- A concrete freespace state: one point at angular frequency 1,
`ep_r = mu_r = 1`, no resistivity, `tem` mode, angle 0. -/
noncomputable def mA : Freespace :=
  { w := 1, ep_r := 1, mu_r := 1, rho := Option.none,
    mode_type := "tem", angle := 0 }

/-- The state `mA` with resistivity set to the numeric value 0. -/
noncomputable def mZero : Freespace := { mA with rho := some 0 }

/-- The state `mA` with an unrecognized `mode_type`. -/
noncomputable def mB : Freespace := { mA with mode_type := "rhcp" }

/-- The conductance value of `mA` (its `rho` is `None`). -/
noncomputable def gA : ℝ := 0 + mA.w * ((epsilon_0 : ℂ) * mA.ep_r).im

/-- The generic distributed-line-model characteristic impedance of `mA`. -/
noncomputable def zA : ℂ :=
  ((((Freespace.R mA : ℝ) : ℂ) + (mA.w : ℂ) * ((Freespace.L mA : ℝ) : ℂ) * Complex.I) /
   (((gA : ℝ) : ℂ) + (mA.w : ℂ) * ((Freespace.C mA : ℝ) : ℂ) * Complex.I)) ^ ((1 : ℂ) / 2)

/-- Helper: when the stored resistivity is `None` or nonzero, `G` does not
raise. -/
theorem freespace_G_ok (m : Freespace)
    (hrho : m.rho = Option.none ∨ ∃ r, m.rho = some r ∧ r ≠ 0) :
    ∃ g, Freespace.G m = Except.ok g := by
  cases hg : Freespace.G m with
  | ok g => exact ⟨g, rfl⟩
  | error e =>
    exfalso
    rcases hrho with h | ⟨r, h, hr⟩
    · simp [Freespace.G, h] at hg
    · simp [Freespace.G, h, hr] at hg

/-- Helper: when the stored resistivity is `None` or nonzero, the generic
`Z0` succeeds. -/
theorem distributedCircuit_Z0_ok (m : Freespace)
    (hrho : m.rho = Option.none ∨ ∃ r, m.rho = some r ∧ r ≠ 0) :
    ∃ z, DistributedCircuit.Z0 m = Except.ok z := by
  obtain ⟨g, hg⟩ := freespace_G_ok m hrho
  cases hz : DistributedCircuit.Z0 m with
  | ok z => exact ⟨z, rfl⟩
  | error e =>
    exfalso
    unfold DistributedCircuit.Z0 at hz
    rw [hg] at hz
    simp at hz

/-- Helper: when the stored resistivity is `None` or nonzero, the generic
`gamma` succeeds. -/
theorem distributedCircuit_gamma_ok (m : Freespace)
    (hrho : m.rho = Option.none ∨ ∃ r, m.rho = some r ∧ r ≠ 0) :
    ∃ g, DistributedCircuit.gamma m = Except.ok g := by
  obtain ⟨g, hg⟩ := freespace_G_ok m hrho
  cases hz : DistributedCircuit.gamma m with
  | ok z => exact ⟨z, rfl⟩
  | error e =>
    exfalso
    unfold DistributedCircuit.gamma at hz
    rw [hg] at hz
    simp at hz

/-- Helper: the mode dictionary lookup fails on a key different from the
three entries. -/
theorem Z0_dict_lookup_none (s : String) (a b c : ℂ)
    (h1 : s ≠ "te") (h2 : s ≠ "tm") (h3 : s ≠ "tem") :
    List.lookup s [("te", a), ("tm", b), ("tem", c)] = Option.none := by
  simp [List.lookup, beq_eq_false_iff_ne.mpr h1, beq_eq_false_iff_ne.mpr h2,
    beq_eq_false_iff_ne.mpr h3]

/-- C1: for every state of the medium and every frequency point, the four
distributed primaries equal the spec formulas: `R = w * imag(mu_0*mu_r)`,
`L = real(mu_0*mu_r)`, `C = real(epsilon_0*ep_r)` and
`G = conductive_term + w * imag(epsilon_0*ep_r)` where the conductive term
is `1/resistivity` if resistivity is set and `0` if it is `None` (for `G`,
under the precondition that a set resistivity is nonzero, since the code
raises `ZeroDivisionError` otherwise). -/
theorem freespace_RLCG_match_spec (m : Freespace)
    (hrho : m.rho = Option.none ∨ ∃ r, m.rho = some r ∧ r ≠ 0) :
    Freespace.R m = spec_R m ∧ Freespace.L m = spec_L m ∧
    Freespace.C m = spec_C m ∧ Freespace.G m = Except.ok (spec_G m) := by
  refine ⟨rfl, rfl, rfl, ?_⟩
  rcases hrho with h | ⟨r, h, hr⟩
  · simp [Freespace.G, spec_G, spec_conductive_term, h]
  · simp [Freespace.G, spec_G, spec_conductive_term, h, hr]

/-- Witness for C1 at the concrete state `mA`. -/
theorem freespace_RLCG_match_spec_witness :
    Freespace.R mA = spec_R mA ∧ Freespace.L mA = spec_L mA ∧
    Freespace.C mA = spec_C mA ∧ Freespace.G mA = Except.ok (spec_G mA) :=
  freespace_RLCG_match_spec mA (Or.inl rfl)

/-- C10: the conductance accessor `G` is guarded only against the
resistivity being `None`, not against it being zero: with `rho = None` it
returns a value, with a nonzero stored resistivity it evaluates
`1/resistivity` and returns a value, and with a stored resistivity of `0`
at a point the unguarded division raises `ZeroDivisionError`, so `G` is
total exactly when the resistivity is `None` or nonzero at the point. -/
theorem G_guard_only_against_none (m : Freespace) :
    (m.rho = Option.none →
      Freespace.G m = Except.ok (0 + m.w * ((epsilon_0 : ℂ) * m.ep_r).im)) ∧
    (∀ r : ℝ, m.rho = some r → r ≠ 0 →
      Freespace.G m = Except.ok (1 / r + m.w * ((epsilon_0 : ℂ) * m.ep_r).im)) ∧
    (∀ r : ℝ, m.rho = some r → r = 0 →
      Freespace.G m = Except.error Err.ZeroDivisionError) := by
  refine ⟨fun h => by simp [Freespace.G, h], fun r h hr => by simp [Freespace.G, h, hr],
    fun r h hr => by simp [Freespace.G, h, hr]⟩

/-- Witness for C10 at the concrete state `mZero`, whose resistivity is the
numeric value 0: reading `G` raises `ZeroDivisionError`. -/
theorem G_guard_only_against_none_witness :
    Freespace.G mZero = Except.error Err.ZeroDivisionError :=
  (G_guard_only_against_none mZero).2.2 0 rfl rfl

/-- C3: for every state of the medium, the propagation constant equals the
generic distributed-line-model gamma multiplied by `cos(angle)`, and this
holds for every `mode_type` (reassigning `mode_type`, including away from
or to `tem`, never changes gamma: a `tem` medium with a nonzero angle
still has its gamma scaled by `cos(angle)`). -/
theorem gamma_scaled_by_cos_all_modes (m : Freespace) (t : String) :
    Freespace.gamma m =
      Except.map (fun g => g * ((Real.cos m.angle : ℝ) : ℂ))
        (DistributedCircuit.gamma m) ∧
    Freespace.gamma (Freespace.set_mode_type m t) = Freespace.gamma m := by
  obtain ⟨w, e, mu, rh, mt, an⟩ := m
  constructor
  · cases hg : DistributedCircuit.gamma ⟨w, e, mu, rh, mt, an⟩ <;>
      simp [Freespace.gamma, hg, Except.map]
  · rfl

/-- C2: for every state whose `mode_type` is `te`, `tm` or `tem`, the
characteristic impedance equals the generic distributed-line-model `Z0`
divided by `cos(angle)` for `te`, multiplied by `cos(angle)` for `tm`, and
unchanged (for every angle) for `tem`. -/
theorem Z0_mode_scaling (m : Freespace) :
    (m.mode_type = "te" → Freespace.Z0 m =
      Except.map (fun z => z / ((Real.cos m.angle : ℝ) : ℂ))
        (DistributedCircuit.Z0 m)) ∧
    (m.mode_type = "tm" → Freespace.Z0 m =
      Except.map (fun z => z * ((Real.cos m.angle : ℝ) : ℂ))
        (DistributedCircuit.Z0 m)) ∧
    (m.mode_type = "tem" → Freespace.Z0 m = DistributedCircuit.Z0 m) := by
  refine ⟨?_, ?_, ?_⟩ <;> intro h <;>
    cases hz : DistributedCircuit.Z0 m <;>
      simp [Freespace.Z0, hz, h, Except.map, List.lookup]

/-- Witness for C2 at the concrete state `mA` (mode `tem`): the
characteristic impedance is the unscaled generic one. -/
theorem Z0_mode_scaling_witness :
    Freespace.Z0 mA = DistributedCircuit.Z0 mA :=
  (Z0_mode_scaling mA).2.2 rfl

/-- C4 counterexample: the claim says every later reassignment of
`mode_type` also stores the lowercase canonicalization, but `mode_type`
is a plain attribute outside `__init__`: reassigning `"TE"` stores `"TE"`
verbatim (not `"te"`), and reading the characteristic impedance then
differs from the `"te"` behavior (it raises `KeyError`). -/
theorem mode_type_reassign_cex :
    (Freespace.set_mode_type mA "TE").mode_type ≠ py_lower "TE" ∧
    Freespace.Z0 (Freespace.set_mode_type mA "TE") ≠
      Freespace.Z0 (Freespace.set_mode_type mA "te") := by
  constructor
  · decide
  · have h1 : Freespace.Z0 (Freespace.set_mode_type mA "TE") =
        Except.error (Err.KeyError "TE") := rfl
    have h2 : Freespace.Z0 (Freespace.set_mode_type mA "te") =
        Except.ok (zA / ((Real.cos mA.angle : ℝ) : ℂ)) := rfl
    rw [h1, h2]
    exact fun hcontra => Except.noConfusion hcontra

/-- C4 (amended): `mode_type` is lowercased at construction only; a later
plain attribute reassignment stores the given value verbatim. -/
theorem mode_type_lowercased_at_init_only (w : ℝ) (e mu : ℂ) (s : String)
    (a : ℝ) (m : Freespace) (v : String) :
    Except.map Freespace.mode_type (Freespace.init w e mu RhoVal.none s a) =
      Except.ok (py_lower s) ∧
    (Freespace.set_mode_type m v).mode_type = v :=
  ⟨rfl, rfl⟩

/-- C5: assigning a `mode_type` value outside the three recognized modes
never raises (plain attribute assignment is total), and the subsequent
read of the characteristic impedance raises `KeyError` (a failed lookup)
carrying that value, at read time (under the precondition that the stored
resistivity does not itself make `G` raise first). -/
theorem Z0_invalid_mode_keyerror (m : Freespace) (s : String)
    (hs : s ≠ "te" ∧ s ≠ "tm" ∧ s ≠ "tem")
    (hrho : m.rho = Option.none ∨ ∃ r, m.rho = some r ∧ r ≠ 0) :
    Freespace.Z0 (Freespace.set_mode_type m s) =
      Except.error (Err.KeyError s) := by
  have hrho2 : (Freespace.set_mode_type m s).rho = Option.none ∨
      ∃ r, (Freespace.set_mode_type m s).rho = some r ∧ r ≠ 0 := hrho
  obtain ⟨z, hz⟩ := distributedCircuit_Z0_ok (Freespace.set_mode_type m s) hrho2
  unfold Freespace.Z0
  rw [hz]
  simp [Freespace.set_mode_type,
    Z0_dict_lookup_none s _ _ _ hs.1 hs.2.1 hs.2.2]

/-- Witness for C5: set `mode_type` to `"rhcp"` on the concrete state `mA`
and read the characteristic impedance. -/
theorem Z0_invalid_mode_keyerror_witness :
    Freespace.Z0 (Freespace.set_mode_type mA "rhcp") =
      Except.error (Err.KeyError "rhcp") :=
  Z0_invalid_mode_keyerror mA "rhcp"
    ⟨by decide, by decide, by decide⟩ (Or.inl rfl)

/-- C9: for every state whose `mode_type` is outside the three recognized
modes (and whose resistivity does not make `G` raise), reading the
propagation constant does not raise and equals the generic gamma
multiplied by `cos(angle)` exactly as for a valid mode (no `mode_type`
validation in `gamma`), while reading the characteristic impedance on the
same state raises `KeyError`. -/
theorem gamma_no_mode_validation (m : Freespace)
    (hs : m.mode_type ≠ "te" ∧ m.mode_type ≠ "tm" ∧ m.mode_type ≠ "tem")
    (hrho : m.rho = Option.none ∨ ∃ r, m.rho = some r ∧ r ≠ 0) :
    Freespace.gamma m =
      Except.map (fun g => g * ((Real.cos m.angle : ℝ) : ℂ))
        (DistributedCircuit.gamma m) ∧
    (Freespace.gamma m).isOk = true ∧
    Freespace.Z0 m = Except.error (Err.KeyError m.mode_type) := by
  obtain ⟨g, hg⟩ := distributedCircuit_gamma_ok m hrho
  obtain ⟨z, hz⟩ := distributedCircuit_Z0_ok m hrho
  refine ⟨?_, ?_, ?_⟩
  · unfold Freespace.gamma
    rw [hg]
    rfl
  · unfold Freespace.gamma Except.isOk
    rw [hg]
    rfl
  · unfold Freespace.Z0
    rw [hz]
    simp [Z0_dict_lookup_none m.mode_type _ _ _ hs.1 hs.2.1 hs.2.2]

/-- Witness for C9 at the concrete state `mB`, whose `mode_type` is
`"rhcp"`. -/
theorem gamma_no_mode_validation_witness :
    Freespace.gamma mB =
      Except.map (fun g => g * ((Real.cos mB.angle : ℝ) : ℂ))
        (DistributedCircuit.gamma mB) ∧
    (Freespace.gamma mB).isOk = true ∧
    Freespace.Z0 mB = Except.error (Err.KeyError mB.mode_type) :=
  gamma_no_mode_validation mB
    ⟨by decide, by decide, by decide⟩ (Or.inl rfl)

/-- C6: assigning a string whose lowercase form is absent from the
material table raises `KeyError` (a `LookupError`-class error) at
assignment time, and the object's stored resistivity is left unchanged
(the exception fires before `self._rho` is assigned). -/
theorem rho_assign_unknown_material (m : Freespace) (s : String)
    (h : materials.lookup (py_lower s) = Option.none) :
    Freespace.rho_assign m (RhoVal.str s) =
      (m, some (Err.KeyError (py_lower s))) ∧
    (Freespace.rho_assign m (RhoVal.str s)).1.rho = m.rho := by
  constructor <;> simp [Freespace.rho_assign, Freespace.rho_set, h]

/-- Witness for C6: assign `"unobtainium"` (absent from the table) to the
resistivity of the concrete state `mA`. -/
theorem rho_assign_unknown_material_witness :
    Freespace.rho_assign mA (RhoVal.str "unobtainium") =
      (mA, some (Err.KeyError (py_lower "unobtainium"))) ∧
    (Freespace.rho_assign mA (RhoVal.str "unobtainium")).1.rho = mA.rho :=
  rho_assign_unknown_material mA "unobtainium" (by decide)

/-- C7: round-trip on resistivity: assigning a material name string whose
lowercase form is in the material table resolves it at assignment time to
the table's numeric resistivity, stores that number, and a subsequent read
of the stored resistivity returns it (no further lookup: the stored field
already holds the number). -/
theorem rho_assign_roundtrip (m : Freespace) (s : String) (r : ℚ)
    (h : materials.lookup (py_lower s) = some r) :
    Freespace.rho_assign m (RhoVal.str s) =
      ({ m with rho := some (r : ℝ) }, Option.none) ∧
    (Freespace.rho_assign m (RhoVal.str s)).1.rho = some (r : ℝ) := by
  constructor <;> simp [Freespace.rho_assign, Freespace.rho_set, h]

/-- Witness for C7: assign the mixed-case material name `"Al"` to the
concrete state `mA`; the stored resistivity becomes the table value for
`"al"`. -/
theorem rho_assign_roundtrip_witness :
    Freespace.rho_assign mA (RhoVal.str "Al") =
      ({ mA with rho := some ((2.82e-8 : ℚ) : ℝ) }, Option.none) ∧
    (Freespace.rho_assign mA (RhoVal.str "Al")).1.rho =
      some ((2.82e-8 : ℚ) : ℝ) :=
  rho_assign_roundtrip mA "Al" (2.82e-8 : ℚ) rfl

/-- C8: with a fixed generic line-model impedance `z` and `cos(angle)`
nonzero, the `te`-mode impedance is `z / cos(angle)`, the `tm`-mode
impedance is `z * cos(angle)`, and their product is `z ^ 2`. -/
theorem Z0_te_tm_product (m : Freespace) (z : ℂ)
    (hz : DistributedCircuit.Z0 m = Except.ok z)
    (hc : Real.cos m.angle ≠ 0) :
    Freespace.Z0 (Freespace.set_mode_type m "te") =
      Except.ok (z / ((Real.cos m.angle : ℝ) : ℂ)) ∧
    Freespace.Z0 (Freespace.set_mode_type m "tm") =
      Except.ok (z * ((Real.cos m.angle : ℝ) : ℂ)) ∧
    z / ((Real.cos m.angle : ℝ) : ℂ) * (z * ((Real.cos m.angle : ℝ) : ℂ)) =
      z ^ 2 := by
  have hz1 : DistributedCircuit.Z0 (Freespace.set_mode_type m "te") =
      Except.ok z := hz
  have hz2 : DistributedCircuit.Z0 (Freespace.set_mode_type m "tm") =
      Except.ok z := hz
  have hc2 : ((Real.cos m.angle : ℝ) : ℂ) ≠ 0 := Complex.ofReal_ne_zero.mpr hc
  refine ⟨?_, ?_, ?_⟩
  · unfold Freespace.Z0
    rw [hz1]
    rfl
  · unfold Freespace.Z0
    rw [hz2]
    rfl
  · have key : ∀ u c : ℂ, c ≠ 0 → u / c * (u * c) = u ^ 2 := by
      intro u c hcne
      field_simp
      ring
    exact key z _ hc2

/-- Witness for C8 at the concrete state `mA` (angle 0, so
`cos(angle) = 1 ≠ 0`) with its generic impedance `zA`. -/
theorem Z0_te_tm_product_witness :
    Freespace.Z0 (Freespace.set_mode_type mA "te") =
      Except.ok (zA / ((Real.cos mA.angle : ℝ) : ℂ)) ∧
    Freespace.Z0 (Freespace.set_mode_type mA "tm") =
      Except.ok (zA * ((Real.cos mA.angle : ℝ) : ℂ)) ∧
    zA / ((Real.cos mA.angle : ℝ) : ℂ) * (zA * ((Real.cos mA.angle : ℝ) : ℂ)) =
      zA ^ 2 :=
  Z0_te_tm_product mA zA rfl (by
    rw [show mA.angle = 0 from rfl, Real.cos_zero]
    exact one_ne_zero)
